import Mathlib

/-!
Shallow embedding of the PolyGlotMeet backend (`src/server.js`), a small
Express service with three POST handlers (`/create-meeting`, `/join-meeting`,
`/end-meeting`) over a Supabase table `meetings`, plus a LiveKit token helper
`createLiveKitToken`.

Modelling choices, all driven by the source:
* The Supabase `meetings` table is a list of `MeetingRecord`s; the chained
  query `.eq(...).single()` succeeds exactly when exactly one row matches.
* JSON body fields are `Option String`; JavaScript truthiness of such a field
  (`if (!userId)`) is `truthy`: `undefined` and the empty string are falsy.
* `Math.random()` is modelled as `k / 2^53` for a natural `k < 2^53` (the
  double produced by the engine), so `Math.floor(Math.random() * m)` is the
  natural-number quotient `k * m / 2^53`.
* `crypto.randomBytes(4).toString('hex')` is four bytes rendered as two
  lowercase hex characters each.
* External effects that can fail (LiveKit room deletion in `/end-meeting`,
  JWT signing in `/create-meeting`) are driven by explicit Boolean
  failure flags passed to the handler.
-/

/-- A row of the Supabase `meetings` table, as inserted by `/create-meeting`. -/
structure MeetingRecord where
  meeting_code : String
  password : String
  livekit_room : String
  host_id : String
  is_active : Bool
deriving DecidableEq

/-- The external store: the rows of the `meetings` table. -/
abbrev Storage := List MeetingRecord

/-- JavaScript truthiness of an optional string body field: `undefined`
(absent) and `""` are falsy, every other string is truthy. -/
def truthy : Option String → Bool
  | none => false
  | some s => !s.isEmpty

/-- Supabase `.single()`: returns the row iff exactly one row matches the
query filters; zero or several matches produce an error, i.e. no data. -/
def singleRow (p : MeetingRecord → Bool) (db : Storage) : Option MeetingRecord :=
  match db.filter p with
  | [r] => some r
  | _ => none

/-- The grant object passed to `at.addGrant` in `createLiveKitToken`. -/
structure VideoGrant where
  roomJoin : Bool
  room : String
  canPublish : Bool
  canSubscribe : Bool
  canPublishData : Bool
  roomAdmin : Bool
deriving DecidableEq

/-- The LiveKit `AccessToken` contents: identity options given to the
constructor plus the single grant added before signing. -/
structure AccessToken where
  identity : String
  name : String
  ttl : Nat
  grant : VideoGrant
deriving DecidableEq

/-- `createLiveKitToken(roomName, userId, isHost)` from `server.js`:
identity and display name are both `userId`, ttl is 7200 seconds, the grant
sets roomJoin/canPublish/canSubscribe/canPublishData to true and
`roomAdmin := isHost`. -/
def createLiveKitToken (roomName userId : String) (isHost : Bool) : AccessToken :=
  { identity := userId
    name := userId
    ttl := 7200
    grant :=
      { roomJoin := true
        room := roomName
        canPublish := true
        canSubscribe := true
        canPublishData := true
        roomAdmin := isHost } }

/-! ## Identifier generation (`/create-meeting`, lines 171-187) -/

/-- The denominator of the `Math.random()` model: the produced double is
`k / 2^53` with `k < 2^53`. -/
def RAND_DENOM : Nat := 2 ^ 53

/-- `const chars = 'ABCDEFGHIJKLMNOPQRSTUVWXYZ0123456789'`. -/
def chars : String := "ABCDEFGHIJKLMNOPQRSTUVWXYZ0123456789"

/-- `Math.floor(Math.random() * chars.length)` for the draw `k / 2^53`. -/
def randIndex (k : Nat) : Nat := k * 36 / RAND_DENOM

/-- `chars[Math.floor(Math.random() * chars.length)]` for the draw `k`. -/
def codeChar (k : Nat) : Char := chars.data.getD (randIndex k) '*'

/-- One `Array.from({length: 3}, () => chars[...]).join('')` group, built
from its three `Math.random()` draws. -/
def genGroup (ka kb kc : Nat) : String :=
  String.mk [codeChar ka, codeChar kb, codeChar kc]

/-- JavaScript `String.prototype.toUpperCase()` on the ASCII strings this
service builds: uppercase every character. -/
def jsToUpperCase (s : String) : String := String.mk (s.data.map Char.toUpper)

/-- The fourteen random draws consumed by one `/create-meeting` call:
nine `Math.random()` draws for the code characters, one for the password,
and the four bytes of `crypto.randomBytes(4)`. -/
structure CreateRand where
  k1 : Nat
  k2 : Nat
  k3 : Nat
  k4 : Nat
  k5 : Nat
  k6 : Nat
  k7 : Nat
  k8 : Nat
  k9 : Nat
  kp : Nat
  b1 : Nat
  b2 : Nat
  b3 : Nat
  b4 : Nat
deriving DecidableEq

/-- The draws are in range: `Math.random()` doubles are `k / 2^53` with
`k < 2^53`, and random bytes are below 256. -/
def CreateRand.Valid (r : CreateRand) : Prop :=
  r.k1 < RAND_DENOM ∧ r.k2 < RAND_DENOM ∧ r.k3 < RAND_DENOM ∧
  r.k4 < RAND_DENOM ∧ r.k5 < RAND_DENOM ∧ r.k6 < RAND_DENOM ∧
  r.k7 < RAND_DENOM ∧ r.k8 < RAND_DENOM ∧ r.k9 < RAND_DENOM ∧
  r.kp < RAND_DENOM ∧ r.b1 < 256 ∧ r.b2 < 256 ∧ r.b3 < 256 ∧ r.b4 < 256

/-- `const meetingId = \x7b...\x7d.toUpperCase()`: three 3-character groups
joined by hyphens, uppercased. -/
def genMeetingId (r : CreateRand) : String :=
  jsToUpperCase (genGroup r.k1 r.k2 r.k3 ++ "-" ++ genGroup r.k4 r.k5 r.k6
      ++ "-" ++ genGroup r.k7 r.k8 r.k9)

/-- The numeric value `Math.floor(100000 + Math.random() * 900000)` for the
draw `k / 2^53`. -/
def passVal (k : Nat) : Nat := 100000 + k * 900000 / RAND_DENOM

/-- `const password = Math.floor(100000 + Math.random() * 900000).toString()`. -/
def genPassword (k : Nat) : String := Nat.repr (passVal k)

/-- One byte of `Buffer.toString('hex')`: two lowercase hex characters
(`Nat.digitChar` maps 0-15 to `0`-`9`, `a`-`f`). -/
def byteToHex (b : Nat) : String :=
  String.mk [Nat.digitChar (b / 16), Nat.digitChar (b % 16)]

/-- The `crypto.randomBytes(4).toString('hex')` suffix of the room name. -/
def hexSuffix (r : CreateRand) : String :=
  byteToHex r.b1 ++ byteToHex r.b2 ++ byteToHex r.b3 ++ byteToHex r.b4

/-- `const roomName = room_$\x7bmeetingId\x7d_$\x7bhex\x7d`. -/
def genRoomName (r : CreateRand) : String :=
  "room_" ++ genMeetingId r ++ "_" ++ hexSuffix r

/-! ## The three POST handlers -/

/-- Body of `POST /create-meeting`. -/
structure CreateBody where
  userId : Option String
deriving DecidableEq

/-- Outcome of `POST /create-meeting`: 400 `userId required`,
500 (storage or signing error), or 200 with the response payload. -/
inductive CreateResult where
  | badRequest
  | serverError
  | ok (meetingId password roomName : String) (token : AccessToken)
deriving DecidableEq

/-- The `MeetingRecord` inserted by `/create-meeting` (lines 191-199):
`is_active` is true and `host_id` is the caller's `userId`. -/
def newRecord (r : CreateRand) (userId : String) : MeetingRecord :=
  { meeting_code := genMeetingId r
    password := genPassword r.kp
    livekit_room := genRoomName r
    host_id := userId
    is_active := true }

/-- The `/create-meeting` handler (lines 153-240). `signFails` drives the
external JWT signer: when it throws after the insert succeeded, the catch
block answers 500 and the inserted row stays (no rollback). The Supabase
insert errors (and the handler throws, answering 500 with storage
unchanged) exactly when the unique constraint on `meeting_code` is hit. -/
def createMeeting (db : Storage) (b : CreateBody) (r : CreateRand)
    (signFails : Bool) : CreateResult × Storage :=
  if !truthy b.userId then
    (.badRequest, db)
  else
    let userId := b.userId.getD ""
    let meetingId := genMeetingId r
    if db.any (fun rec => rec.meeting_code == meetingId) then
      (.serverError, db)
    else
      let db' := db ++ [newRecord r userId]
      if signFails then
        (.serverError, db')
      else
        (.ok meetingId (genPassword r.kp) (genRoomName r)
          (createLiveKitToken (genRoomName r) userId true), db')

/-- Body of `POST /join-meeting`. -/
structure JoinBody where
  meetingId : Option String
  password : Option String
  userId : Option String
deriving DecidableEq

/-- Outcome of `POST /join-meeting`: 400 `Missing fields`, 404
`Meeting not found or inactive`, 403 `Invalid password`, or 200 with
`\x7btoken, isHost\x7d`. -/
inductive JoinResult where
  | badRequest
  | notFound
  | forbidden
  | ok (token : AccessToken) (isHost : Bool)
deriving DecidableEq

/-- The Supabase query of `/join-meeting`:
`.eq('meeting_code', meetingId).eq('is_active', true).single()`. -/
def joinLookup (db : Storage) (b : JoinBody) : Option MeetingRecord :=
  singleRow (fun rec => (some rec.meeting_code == b.meetingId) && rec.is_active) db

/-- The `/join-meeting` handler (lines 244-279). -/
def joinMeeting (db : Storage) (b : JoinBody) : JoinResult × Storage :=
  if !truthy b.meetingId || !truthy b.userId then
    (.badRequest, db)
  else
    match joinLookup db b with
    | none => (.notFound, db)
    | some meeting =>
      if some meeting.password != b.password && some meeting.host_id != b.userId then
        (.forbidden, db)
      else
        let isHost := some meeting.host_id == b.userId
        (.ok (createLiveKitToken meeting.livekit_room (b.userId.getD "") isHost)
          isHost, db)

/-- Body of `POST /end-meeting`. -/
structure EndBody where
  meetingId : Option String
  userId : Option String
deriving DecidableEq

/-- Outcome of `POST /end-meeting`: 403 `Not authorized` or 200
`\x7bsuccess: true\x7d`. -/
inductive EndResult where
  | forbidden
  | ok
deriving DecidableEq

/-- The Supabase query of `/end-meeting`:
`.eq('meeting_code', meetingId).single()` — no `is_active` filter. -/
def endLookup (db : Storage) (b : EndBody) : Option MeetingRecord :=
  singleRow (fun rec => some rec.meeting_code == b.meetingId) db

/-- `roomService.deleteRoom`, which either succeeds or throws. -/
def deleteRoomCall (fails : Bool) : Except String Unit :=
  if fails then .error "room deletion failed" else .ok ()

/-- The `/end-meeting` handler (lines 282-316). `roomDeleteFails` drives the
remote `roomService.deleteRoom` call; its try/catch swallows any failure
(`console.warn` only), after which the row is deleted unconditionally by
`.delete().eq('meeting_code', meetingId)`. -/
def endMeeting (db : Storage) (b : EndBody) (roomDeleteFails : Bool) :
    EndResult × Storage :=
  match endLookup db b with
  | none => (.forbidden, db)
  | some meeting =>
    if some meeting.host_id != b.userId then
      (.forbidden, db)
    else
      match deleteRoomCall roomDeleteFails with
      | .ok _ => (.ok, db.filter (fun rec => !(some rec.meeting_code == b.meetingId)))
      | .error _ => (.ok, db.filter (fun rec => !(some rec.meeting_code == b.meetingId)))

/-! ## Decidable checkers for the response formats -/

/-- A character admitted by the uppercase meeting-code alphabet `[A-Z0-9]`. -/
def isCodeChar (c : Char) : Bool :=
  ('A' ≤ c && c ≤ 'Z') || ('0' ≤ c && c ≤ '9')

/-- The meeting-code regex `^[A-Z0-9]\x7b3\x7d-[A-Z0-9]\x7b3\x7d-[A-Z0-9]\x7b3\x7d$`,
decided character by character. -/
def matchesCodePattern (s : String) : Bool :=
  match s.data with
  | [a, b, c, d1, d, e, f, d2, g, h, i] =>
    isCodeChar a && isCodeChar b && isCodeChar c && (d1 == '-') &&
    isCodeChar d && isCodeChar e && isCodeChar f && (d2 == '-') &&
    isCodeChar g && isCodeChar h && isCodeChar i
  | _ => false

/-- A lowercase hexadecimal digit, as produced by `Buffer.toString('hex')`. -/
def isLowerHexChar (c : Char) : Bool :=
  ('0' ≤ c && c ≤ '9') || ('a' ≤ c && c ≤ 'f')

/-! ## Concrete fixtures used by the witnesses -/

/-- A stored meeting as created by the service. -/
def recA : MeetingRecord :=
  { meeting_code := "ABC-DEF-GHI"
    password := "123456"
    livekit_room := "room_ABC-DEF-GHI_0a1b2c3d"
    host_id := "host1"
    is_active := true }

/-- A one-row store. -/
def dbA : Storage := [recA]

/-- A join request by a non-host carrying the correct password. -/
def jbA : JoinBody :=
  { meetingId := some "ABC-DEF-GHI", password := some "123456", userId := some "user2" }

/-- An end request by the host. -/
def ebA : EndBody := { meetingId := some "ABC-DEF-GHI", userId := some "host1" }

/-- All fourteen random draws zero: code `AAA-AAA-AAA`, password `100000`,
room `room_AAA-AAA-AAA_00000000`. -/
def rand0 : CreateRand := ⟨0, 0, 0, 0, 0, 0, 0, 0, 0, 0, 0, 0, 0, 0⟩

/-! ## Helper lemmas -/

lemma joinMeeting_of_found (db : Storage) (b : JoinBody) (m : MeetingRecord)
    (hmid : truthy b.meetingId = true) (huid : truthy b.userId = true)
    (hm : joinLookup db b = some m) :
    joinMeeting db b =
      if some m.password != b.password && some m.host_id != b.userId then
        (.forbidden, db)
      else
        (.ok (createLiveKitToken m.livekit_room (b.userId.getD "")
            (some m.host_id == b.userId)) (some m.host_id == b.userId), db) := by
  unfold joinMeeting
  rw [hmid, huid, hm]
  simp

lemma joinMeeting_snd (db : Storage) (b : JoinBody) : (joinMeeting db b).2 = db := by
  unfold joinMeeting
  split
  · rfl
  · rcases joinLookup db b with _ | m
    · rfl
    · dsimp only
      split
      · rfl
      · rfl

lemma joinMeeting_ok_token (db : Storage) (b : JoinBody) (m : MeetingRecord)
    (t : AccessToken) (h : Bool) (hm : joinLookup db b = some m)
    (hok : (joinMeeting db b).1 = .ok t h) :
    t = createLiveKitToken m.livekit_room (b.userId.getD "") (some m.host_id == b.userId)
    ∧ h = (some m.host_id == b.userId) := by
  unfold joinMeeting at hok
  by_cases hv : (!truthy b.meetingId || !truthy b.userId) = true
  · rw [if_pos hv] at hok
    simp at hok
  · rw [if_neg hv, hm] at hok
    by_cases hc : (some m.password != b.password && some m.host_id != b.userId) = true
    · simp only [hc, if_true] at hok
      simp at hok
    · simp only [hc, if_false] at hok
      simp at hok
      exact ⟨hok.1.symm, hok.2.symm⟩

lemma joinMeeting_notFound (db : Storage) (b : JoinBody)
    (hmid : truthy b.meetingId = true) (huid : truthy b.userId = true)
    (hnone : joinLookup db b = none) : (joinMeeting db b).1 = .notFound := by
  unfold joinMeeting
  rw [hmid, huid, hnone]
  simp

lemma endLookup_of_mid_none (db : Storage) (b : EndBody) (h : b.meetingId = none) :
    endLookup db b = none := by
  simp [endLookup, singleRow, h, List.filter_eq_nil_iff]

lemma joinLookup_after_delete (db : Storage) (mid : Option String) (b2 : JoinBody)
    (h : b2.meetingId = mid) :
    joinLookup (db.filter (fun rec => !(some rec.meeting_code == mid))) b2 = none := by
  unfold joinLookup singleRow
  rw [List.filter_filter]
  have : (db.filter fun a =>
      ((some a.meeting_code == b2.meetingId) && a.is_active) &&
        !(some a.meeting_code == mid)) = [] := by
    rw [List.filter_eq_nil_iff]
    intro a _
    subst h
    cases hbe : (some a.meeting_code == b2.meetingId) <;> simp [hbe]
  rw [this]

lemma createMeeting_ok_inv (db : Storage) (b : CreateBody) (r : CreateRand)
    (sf : Bool) (mid pw rn : String) (tok : AccessToken)
    (hok : (createMeeting db b r sf).1 = .ok mid pw rn tok) :
    truthy b.userId = true
    ∧ (db.any fun rec => rec.meeting_code == genMeetingId r) = false
    ∧ sf = false
    ∧ mid = genMeetingId r
    ∧ pw = genPassword r.kp
    ∧ rn = genRoomName r
    ∧ tok = createLiveKitToken (genRoomName r) (b.userId.getD "") true
    ∧ (createMeeting db b r sf).2 = db ++ [newRecord r (b.userId.getD "")] := by
  unfold createMeeting at hok ⊢
  cases hu : truthy b.userId with
  | false => simp [hu] at hok
  | true =>
    cases hfresh : (db.any fun rec => rec.meeting_code == genMeetingId r) with
    | true => simp [hu, hfresh] at hok
    | false =>
      cases hsf : sf with
      | true => simp [hu, hfresh, hsf] at hok
      | false =>
        simp only [hu, hfresh, hsf] at hok ⊢
        simp at hok
        obtain ⟨rfl, rfl, rfl, rfl⟩ := hok
        simp

/-! ## Claims -/

/-- C1: for a join request whose meetingId matches an active stored record,
access is granted iff the supplied password equals the stored one or the
supplied userId equals the stored host_id; if both fail the response is 403;
on success the isHost flag equals (host_id == userId); in particular a host
with a wrong password succeeds with isHost true and a non-host with the
correct password succeeds with isHost false. -/
theorem join_access_iff (db : Storage) (b : JoinBody) (m : MeetingRecord)
    (hmid : truthy b.meetingId = true) (huid : truthy b.userId = true)
    (hm : joinLookup db b = some m) :
    ((∃ t h, (joinMeeting db b).1 = .ok t h) ↔
      (b.password = some m.password ∨ b.userId = some m.host_id))
    ∧ (b.password ≠ some m.password → b.userId ≠ some m.host_id →
        (joinMeeting db b).1 = .forbidden)
    ∧ (∀ t h, (joinMeeting db b).1 = .ok t h → h = (some m.host_id == b.userId))
    ∧ (b.userId = some m.host_id → b.password ≠ some m.password →
        (joinMeeting db b).1 =
          .ok (createLiveKitToken m.livekit_room (b.userId.getD "") true) true)
    ∧ (b.password = some m.password → b.userId ≠ some m.host_id →
        (joinMeeting db b).1 =
          .ok (createLiveKitToken m.livekit_room (b.userId.getD "") false) false) := by
  have hj := joinMeeting_of_found db b m hmid huid hm
  by_cases hp : b.password = some m.password <;> by_cases hu : b.userId = some m.host_id
  · simp [hj, hp, hu]
  · have hu2 : some m.host_id ≠ b.userId := fun e => hu e.symm
    have hb : (some m.host_id == b.userId) = false := beq_eq_false_iff_ne.mpr hu2
    simp [hj, hp, hu, hu2, hb]
  · have hp2 : some m.password ≠ b.password := fun e => hp e.symm
    simp [hj, hp2, hu]
  · have hu2 : some m.host_id ≠ b.userId := fun e => hu e.symm
    have hp2 : some m.password ≠ b.password := fun e => hp e.symm
    simp [hj, hp, hu, hp2, hu2]

/-- Witness for C1: in the one-row store, the non-host `user2` joining with
the correct password is admitted with `isHost := false`. -/
theorem join_access_iff_witness :
    (joinMeeting dbA jbA).1 =
      .ok (createLiveKitToken "room_ABC-DEF-GHI_0a1b2c3d" "user2" false) false :=
  (join_access_iff dbA jbA recA (by decide) (by decide) (by decide)).2.2.2.2
    (by decide) (by decide)

/-- C2: join-meeting never mutates the store and always scopes its token to
the stored `livekit_room`, so repeating the same join request yields the
same result against the same store. -/
theorem join_immutable_room (db : Storage) (b : JoinBody) (m : MeetingRecord)
    (hm : joinLookup db b = some m) :
    (joinMeeting db b).2 = db
    ∧ (∀ t h, (joinMeeting db b).1 = .ok t h → t.grant.room = m.livekit_room)
    ∧ joinMeeting (joinMeeting db b).2 b = joinMeeting db b := by
  refine ⟨joinMeeting_snd db b, ?_, by rw [joinMeeting_snd]⟩
  intro t h hok
  rw [(joinMeeting_ok_token db b m t h hm hok).1]
  rfl

/-- Witness for C2 at the one-row store and the valid join request. -/
theorem join_immutable_room_witness :
    (joinMeeting dbA jbA).2 = dbA
    ∧ (∀ t h, (joinMeeting dbA jbA).1 = .ok t h → t.grant.room = recA.livekit_room)
    ∧ joinMeeting (joinMeeting dbA jbA).2 jbA = joinMeeting dbA jbA :=
  join_immutable_room dbA jbA recA (by decide)

/-- C3: end-meeting by the host answers 200 `\x7bsuccess: true\x7d` whether or
not the remote room deletion fails (the failure is swallowed), the record is
deleted from the store, and a subsequent well-formed join with that code is
answered 404. -/
theorem end_by_host (db : Storage) (b : EndBody) (m : MeetingRecord) (rf : Bool)
    (hm : endLookup db b = some m) (hh : b.userId = some m.host_id) :
    endMeeting db b rf =
      (.ok, db.filter (fun rec => !(some rec.meeting_code == b.meetingId)))
    ∧ ∀ b2 : JoinBody, b2.meetingId = b.meetingId → truthy b2.meetingId = true →
        truthy b2.userId = true →
        (joinMeeting (endMeeting db b rf).2 b2).1 = .notFound := by
  have h1 : endMeeting db b rf =
      (.ok, db.filter (fun rec => !(some rec.meeting_code == b.meetingId))) := by
    unfold endMeeting
    rw [hm, hh]
    simp [deleteRoomCall]
    cases rf <;> simp
  refine ⟨h1, ?_⟩
  intro b2 hb2 hmid huid
  rw [h1]
  exact joinMeeting_notFound _ b2 hmid huid (joinLookup_after_delete db b.meetingId b2 hb2)

/-- Witness for C3: the host ends the meeting while the remote deletion
fails; the row disappears and the original join request now gets 404. -/
theorem end_by_host_witness :
    endMeeting dbA ebA true =
      (.ok, dbA.filter (fun rec => !(some rec.meeting_code == ebA.meetingId)))
    ∧ ∀ b2 : JoinBody, b2.meetingId = ebA.meetingId → truthy b2.meetingId = true →
        truthy b2.userId = true →
        (joinMeeting (endMeeting dbA ebA true).2 b2).1 = .notFound :=
  end_by_host dbA ebA recA true (by decide) (by decide)

/-- C4: an end-meeting request finding no row (in particular when
`meetingId` or `userId` is absent from the body) or whose `userId` differs
from the stored `host_id` is answered 403 and leaves the store unchanged. -/
theorem end_not_authorized (db : Storage) (b : EndBody) (rf : Bool)
    (h : b.meetingId = none ∨ b.userId = none ∨
      ∀ m, endLookup db b = some m → b.userId ≠ some m.host_id) :
    endMeeting db b rf = (.forbidden, db) := by
  unfold endMeeting
  cases hL : endLookup db b with
  | none => rfl
  | some m =>
    have hne : (some m.host_id != b.userId) = true := by
      rcases h with h | h | h
      · rw [endLookup_of_mid_none db b h] at hL; cases hL
      · rw [h]; rfl
      · have := h m hL
        simp only [bne_iff_ne]
        exact fun e => this e.symm
    simp [hne]

/-- Witness for C4: the non-host `user2` cannot end the stored meeting; the
store keeps its row. -/
theorem end_not_authorized_witness :
    endMeeting dbA { meetingId := some "ABC-DEF-GHI", userId := some "user2" } true =
      (.forbidden, dbA) :=
  end_not_authorized dbA _ true (Or.inr (Or.inr (fun m hm => by
    have h2 : endLookup dbA { meetingId := some "ABC-DEF-GHI", userId := some "user2" } =
        some recA := by decide
    rw [h2] at hm
    rw [← Option.some.inj hm]
    decide)))

/-- C5: a create-meeting request without a truthy `userId` is answered 400
and the store is untouched (the handler returns before the insert). -/
theorem create_requires_userId (db : Storage) (b : CreateBody) (r : CreateRand)
    (sf : Bool) (h : truthy b.userId = false) :
    createMeeting db b r sf = (.badRequest, db) := by
  unfold createMeeting
  rw [h]
  rfl

/-- Witness for C5: a body with no `userId` against the empty store. -/
theorem create_requires_userId_witness :
    createMeeting [] { userId := none } rand0 false = (.badRequest, []) :=
  create_requires_userId [] { userId := none } rand0 false rfl

/-- C7: every token built by `createLiveKitToken` carries the supplied
`userId` as both identity and display name, a 7200-second (2-hour) ttl, and
grants with roomJoin/canPublish/canSubscribe/canPublishData all true and
roomAdmin equal to the `isHost` argument; create-meeting issues it with
isHost true for the creator and join-meeting with isHost = (host_id ==
userId). -/
theorem token_contents :
    (∀ room uid ih,
      (createLiveKitToken room uid ih).identity = uid ∧
      (createLiveKitToken room uid ih).name = uid ∧
      (createLiveKitToken room uid ih).ttl = 7200 ∧
      (createLiveKitToken room uid ih).grant.roomJoin = true ∧
      (createLiveKitToken room uid ih).grant.canPublish = true ∧
      (createLiveKitToken room uid ih).grant.canSubscribe = true ∧
      (createLiveKitToken room uid ih).grant.canPublishData = true ∧
      (createLiveKitToken room uid ih).grant.roomAdmin = ih)
    ∧ (∀ db b r sf mid pw rn tok,
        (createMeeting db b r sf).1 = .ok mid pw rn tok →
          tok.grant.roomAdmin = true)
    ∧ (∀ db b m t ih, joinLookup db b = some m →
        (joinMeeting db b).1 = .ok t ih →
          t.grant.roomAdmin = (some m.host_id == b.userId)) := by
  refine ⟨fun room uid ih => ⟨rfl, rfl, rfl, rfl, rfl, rfl, rfl, rfl⟩, ?_, ?_⟩
  · intro db b r sf mid pw rn tok hok
    rw [(createMeeting_ok_inv db b r sf mid pw rn tok hok).2.2.2.2.2.2.1]
    rfl
  · intro db b m t ih hm hok
    rw [(joinMeeting_ok_token db b m t ih hm hok).1]
    rfl

/-- Witness for C7: the token of the successful non-host join of the
fixture carries roomAdmin = (host_id == userId) = false. -/
theorem token_contents_witness :
    (createLiveKitToken "room_ABC-DEF-GHI_0a1b2c3d" "user2" false).grant.roomAdmin =
      (some recA.host_id == jbA.userId) :=
  token_contents.2.2 dbA jbA recA
    (createLiveKitToken "room_ABC-DEF-GHI_0a1b2c3d" "user2" false) false
    (by decide) (by decide)

/-- C8: when the insert succeeds (fresh meeting code, truthy userId) but the
token signing then fails, create-meeting answers 500 and performs no
rollback: the inserted record remains in the store. -/
theorem create_no_rollback_on_sign_failure (db : Storage) (b : CreateBody)
    (r : CreateRand) (hu : truthy b.userId = true)
    (hfresh : (db.any fun rec => rec.meeting_code == genMeetingId r) = false) :
    createMeeting db b r true = (.serverError, db ++ [newRecord r (b.userId.getD "")])
    ∧ newRecord r (b.userId.getD "") ∈ (createMeeting db b r true).2 := by
  have h1 : createMeeting db b r true =
      (.serverError, db ++ [newRecord r (b.userId.getD "")]) := by
    simp [createMeeting, hu, hfresh]
  exact ⟨h1, by rw [h1]; simp⟩

/-- Witness for C8: signing fails after the insert on an empty store; the
response is 500 and the new row is present. -/
theorem create_no_rollback_on_sign_failure_witness :
    createMeeting [] { userId := some "u1" } rand0 true =
      (.serverError, [newRecord rand0 "u1"])
    ∧ newRecord rand0 "u1" ∈ (createMeeting [] { userId := some "u1" } rand0 true).2 :=
  create_no_rollback_on_sign_failure [] { userId := some "u1" } rand0 rfl rfl

/-- C10: on a successful create-meeting, the meetingId, password and
roomName of the response are exactly the meeting_code, password and
livekit_room of the inserted record, whose host_id is the request's userId
and whose is_active is true. -/
theorem create_response_matches_record (db : Storage) (b : CreateBody)
    (r : CreateRand) (sf : Bool) (mid pw rn : String) (tok : AccessToken)
    (hok : (createMeeting db b r sf).1 = .ok mid pw rn tok) :
    ∃ uid, b.userId = some uid ∧
      (createMeeting db b r sf).2 = db ++
        [{ meeting_code := mid, password := pw, livekit_room := rn,
           host_id := uid, is_active := true }] := by
  obtain ⟨hu, _, _, hmid, hpw, hrn, _, hdb⟩ :=
    createMeeting_ok_inv db b r sf mid pw rn tok hok
  cases hb : b.userId with
  | none => rw [hb] at hu; cases hu
  | some uid =>
    refine ⟨uid, rfl, ?_⟩
    rw [hdb, hb, hmid, hpw, hrn]
    rfl

/-- Witness for C10: the all-zero draws on the empty store produce code
`AAA-AAA-AAA`, password `100000`, room `room_AAA-AAA-AAA_00000000`, and the
store gains exactly that row with host `u1`. -/
theorem create_response_matches_record_witness :
    ∃ uid, (some "u1" : Option String) = some uid ∧
      (createMeeting [] { userId := some "u1" } rand0 false).2 = [] ++
        [{ meeting_code := "AAA-AAA-AAA", password := "100000",
           livekit_room := "room_AAA-AAA-AAA_00000000",
           host_id := uid, is_active := true }] :=
  create_response_matches_record [] { userId := some "u1" } rand0 false
    "AAA-AAA-AAA" "100000" "room_AAA-AAA-AAA_00000000"
    (createLiveKitToken "room_AAA-AAA-AAA_00000000" "u1" true) (by decide)

/-! ## Decimal rendering of six-digit numbers and character facts -/

lemma toDigitsCore_step (f n : Nat) (ds : List Char) (hf : 0 < f) (hn : n / 10 ≠ 0) :
    Nat.toDigitsCore 10 f n ds =
      Nat.toDigitsCore 10 (f - 1) (n / 10) (Nat.digitChar (n % 10) :: ds) := by
  obtain ⟨g, rfl⟩ : ∃ g, f = g + 1 := ⟨f - 1, by omega⟩
  simp [Nat.toDigitsCore, hn]

lemma toDigitsCore_last (f n : Nat) (ds : List Char) (hf : 0 < f) (hn : n / 10 = 0) :
    Nat.toDigitsCore 10 f n ds = Nat.digitChar (n % 10) :: ds := by
  obtain ⟨g, rfl⟩ : ∃ g, f = g + 1 := ⟨f - 1, by omega⟩
  simp [Nat.toDigitsCore, hn]

lemma toDigits_six (n : Nat) (h1 : 100000 ≤ n) (h2 : n ≤ 999999) :
    Nat.toDigits 10 n =
      [Nat.digitChar (n / 100000 % 10), Nat.digitChar (n / 10000 % 10),
       Nat.digitChar (n / 1000 % 10), Nat.digitChar (n / 100 % 10),
       Nat.digitChar (n / 10 % 10), Nat.digitChar (n % 10)] := by
  unfold Nat.toDigits
  rw [toDigitsCore_step _ _ _ (by omega) (by omega)]
  rw [toDigitsCore_step _ _ _ (by omega) (by omega)]
  rw [toDigitsCore_step _ _ _ (by omega) (by omega)]
  rw [toDigitsCore_step _ _ _ (by omega) (by omega)]
  rw [toDigitsCore_step _ _ _ (by omega) (by omega)]
  rw [toDigitsCore_last _ _ _ (by omega) (by omega)]
  simp only [Nat.div_div_eq_div_mul]

lemma repr_six (n : Nat) (h1 : 100000 ≤ n) (h2 : n ≤ 999999) :
    Nat.repr n = String.mk
      [Nat.digitChar (n / 100000 % 10), Nat.digitChar (n / 10000 % 10),
       Nat.digitChar (n / 1000 % 10), Nat.digitChar (n / 100 % 10),
       Nat.digitChar (n / 10 % 10), Nat.digitChar (n % 10)] := by
  show (Nat.toDigits 10 n).asString = _
  rw [toDigits_six n h1 h2]
  rfl

lemma digitChar_isDigit : ∀ m, m < 10 → (Nat.digitChar m).isDigit = true := by decide

lemma digitChar_ne_zero : ∀ m, m < 10 → 1 ≤ m → Nat.digitChar m ≠ '0' := by decide

lemma digitChar_isLowerHex : ∀ m, m < 16 → isLowerHexChar (Nat.digitChar m) = true := by
  decide

lemma RAND_DENOM_pos : 0 < RAND_DENOM := by norm_num [RAND_DENOM]

lemma passVal_bounds (k : Nat) (hk : k < RAND_DENOM) :
    100000 ≤ passVal k ∧ passVal k ≤ 999999 := by
  have h1 : k * 900000 < 900000 * RAND_DENOM := by
    calc k * 900000 < RAND_DENOM * 900000 :=
          mul_lt_mul_of_pos_right hk (by norm_num)
      _ = 900000 * RAND_DENOM := Nat.mul_comm _ _
  have h2 : k * 900000 / RAND_DENOM < 900000 :=
    (Nat.div_lt_iff_lt_mul RAND_DENOM_pos).mpr h1
  exact ⟨Nat.le_add_right _ _, Nat.add_le_add_left (Nat.le_of_lt_succ h2) 100000⟩

lemma randIndex_lt (k : Nat) (hk : k < RAND_DENOM) : randIndex k < 36 := by
  have h1 : k * 36 < 36 * RAND_DENOM := by
    calc k * 36 < RAND_DENOM * 36 := mul_lt_mul_of_pos_right hk (by norm_num)
      _ = 36 * RAND_DENOM := Nat.mul_comm _ _
  exact (Nat.div_lt_iff_lt_mul RAND_DENOM_pos).mpr h1

lemma codeChar_spec (k : Nat) (hk : k < RAND_DENOM) :
    isCodeChar (codeChar k) = true ∧ Char.toUpper (codeChar k) = codeChar k := by
  have h36 := randIndex_lt k hk
  unfold codeChar
  revert h36
  generalize randIndex k = i
  revert i
  decide

lemma toUpper_dash : Char.toUpper '-' = '-' := by decide

lemma genMeetingId_data (r : CreateRand) (hv : r.Valid) :
    (genMeetingId r).data =
      [codeChar r.k1, codeChar r.k2, codeChar r.k3, '-',
       codeChar r.k4, codeChar r.k5, codeChar r.k6, '-',
       codeChar r.k7, codeChar r.k8, codeChar r.k9] := by
  obtain ⟨h1, h2, h3, h4, h5, h6, h7, h8, h9, -⟩ := hv
  simp [genMeetingId, jsToUpperCase, genGroup, toUpper_dash,
    (codeChar_spec _ h1).2, (codeChar_spec _ h2).2, (codeChar_spec _ h3).2,
    (codeChar_spec _ h4).2, (codeChar_spec _ h5).2, (codeChar_spec _ h6).2,
    (codeChar_spec _ h7).2, (codeChar_spec _ h8).2, (codeChar_spec _ h9).2]

lemma genMeetingId_pattern (r : CreateRand) (hv : r.Valid) :
    matchesCodePattern (genMeetingId r) = true := by
  obtain ⟨h1, h2, h3, h4, h5, h6, h7, h8, h9, hrest⟩ := hv
  rw [matchesCodePattern, genMeetingId_data r
    ⟨h1, h2, h3, h4, h5, h6, h7, h8, h9, hrest⟩]
  simp [(codeChar_spec _ h1).1, (codeChar_spec _ h2).1, (codeChar_spec _ h3).1,
    (codeChar_spec _ h4).1, (codeChar_spec _ h5).1, (codeChar_spec _ h6).1,
    (codeChar_spec _ h7).1, (codeChar_spec _ h8).1, (codeChar_spec _ h9).1]

lemma hexSuffix_data (r : CreateRand) :
    (hexSuffix r).data =
      [Nat.digitChar (r.b1 / 16), Nat.digitChar (r.b1 % 16),
       Nat.digitChar (r.b2 / 16), Nat.digitChar (r.b2 % 16),
       Nat.digitChar (r.b3 / 16), Nat.digitChar (r.b3 % 16),
       Nat.digitChar (r.b4 / 16), Nat.digitChar (r.b4 % 16)] := by
  simp [hexSuffix, byteToHex]

lemma hexSuffix_spec (r : CreateRand) (hv : r.Valid) :
    (hexSuffix r).length = 8 ∧ (hexSuffix r).data.all isLowerHexChar = true := by
  obtain ⟨-, -, -, -, -, -, -, -, -, -, hb1, hb2, hb3, hb4⟩ := hv
  constructor
  · show (hexSuffix r).data.length = 8
    rw [hexSuffix_data]
    rfl
  · rw [hexSuffix_data]
    simp [List.all, digitChar_isLowerHex _ (by omega : r.b1 / 16 < 16),
      digitChar_isLowerHex _ (by omega : r.b1 % 16 < 16),
      digitChar_isLowerHex _ (by omega : r.b2 / 16 < 16),
      digitChar_isLowerHex _ (by omega : r.b2 % 16 < 16),
      digitChar_isLowerHex _ (by omega : r.b3 / 16 < 16),
      digitChar_isLowerHex _ (by omega : r.b3 % 16 < 16),
      digitChar_isLowerHex _ (by omega : r.b4 / 16 < 16),
      digitChar_isLowerHex _ (by omega : r.b4 % 16 < 16)]

lemma room_lit_data : ("room_" : String).data = ['r', 'o', 'o', 'm', '_'] := rfl

lemma under_lit_data : ("_" : String).data = ['_'] := rfl

/-- C6: every successful create-meeting returns a meetingId matching
`^[A-Z0-9]\x7b3\x7d-[A-Z0-9]\x7b3\x7d-[A-Z0-9]\x7b3\x7d$`, a 6-character all-digit
password, non-empty meetingId/password/roomName, and a roomName of the form
`room_<meetingId>_<8 lowercase hex chars>`, which therefore contains the
meetingId as a substring. -/
theorem create_response_format (db : Storage) (b : CreateBody) (r : CreateRand)
    (sf : Bool) (mid pw rn : String) (tok : AccessToken) (hv : r.Valid)
    (hok : (createMeeting db b r sf).1 = .ok mid pw rn tok) :
    matchesCodePattern mid = true
    ∧ pw.length = 6
    ∧ pw.data.all Char.isDigit = true
    ∧ mid ≠ "" ∧ pw ≠ "" ∧ rn ≠ ""
    ∧ rn = "room_" ++ mid ++ "_" ++ hexSuffix r
    ∧ (hexSuffix r).length = 8
    ∧ (hexSuffix r).data.all isLowerHexChar = true
    ∧ mid.data <:+: rn.data := by
  obtain ⟨-, -, -, hmid, hpw, hrn, -, -⟩ :=
    createMeeting_ok_inv db b r sf mid pw rn tok hok
  subst hmid
  subst hpw
  subst hrn
  have hkp : r.kp < RAND_DENOM := hv.2.2.2.2.2.2.2.2.2.1
  have hb := passVal_bounds r.kp hkp
  have hlen : (genPassword r.kp).length = 6 := by
    show (genPassword r.kp).data.length = 6
    simp only [genPassword, repr_six _ hb.1 hb.2]
    rfl
  have hdig : (genPassword r.kp).data.all Char.isDigit = true := by
    simp only [genPassword, repr_six _ hb.1 hb.2]
    simp [List.all_cons,
      digitChar_isDigit _ (by omega : passVal r.kp / 100000 % 10 < 10),
      digitChar_isDigit _ (by omega : passVal r.kp / 10000 % 10 < 10),
      digitChar_isDigit _ (by omega : passVal r.kp / 1000 % 10 < 10),
      digitChar_isDigit _ (by omega : passVal r.kp / 100 % 10 < 10),
      digitChar_isDigit _ (by omega : passVal r.kp / 10 % 10 < 10),
      digitChar_isDigit _ (by omega : passVal r.kp % 10 < 10)]
  have hmidne : genMeetingId r ≠ "" := by
    intro h
    have h2 := congrArg String.data h
    rw [genMeetingId_data r hv] at h2
    simp at h2
  have hpwne : genPassword r.kp ≠ "" := by
    intro h
    have h2 := congrArg String.data h
    simp only [genPassword, repr_six _ hb.1 hb.2] at h2
    simp at h2
  have hrndata : (genRoomName r).data =
      ['r', 'o', 'o', 'm', '_'] ++ (genMeetingId r).data ++
        ('_' :: (hexSuffix r).data) := by
    simp [genRoomName, String.data_append, room_lit_data, under_lit_data]
  have hrnne : genRoomName r ≠ "" := by
    intro h
    have h2 := congrArg String.data h
    rw [hrndata] at h2
    simp at h2
  refine ⟨genMeetingId_pattern r hv, hlen, hdig, hmidne, hpwne, hrnne, rfl,
    (hexSuffix_spec r hv).1, (hexSuffix_spec r hv).2, ?_⟩
  exact ⟨['r', 'o', 'o', 'm', '_'], '_' :: (hexSuffix r).data, by rw [hrndata]⟩

/-- Witness for C6 at the all-zero draws: code `AAA-AAA-AAA`, password
`100000`, room `room_AAA-AAA-AAA_00000000`. -/
theorem create_response_format_witness :
    matchesCodePattern "AAA-AAA-AAA" = true
    ∧ ("100000" : String).length = 6
    ∧ ("100000" : String).data.all Char.isDigit = true
    ∧ ("AAA-AAA-AAA" : String) ≠ "" ∧ ("100000" : String) ≠ ""
    ∧ ("room_AAA-AAA-AAA_00000000" : String) ≠ ""
    ∧ ("room_AAA-AAA-AAA_00000000" : String) =
        "room_" ++ "AAA-AAA-AAA" ++ "_" ++ hexSuffix rand0
    ∧ (hexSuffix rand0).length = 8
    ∧ (hexSuffix rand0).data.all isLowerHexChar = true
    ∧ ("AAA-AAA-AAA" : String).data <:+: ("room_AAA-AAA-AAA_00000000" : String).data :=
  create_response_format [] { userId := some "u1" } rand0 false
    "AAA-AAA-AAA" "100000" "room_AAA-AAA-AAA_00000000"
    (createLiveKitToken "room_AAA-AAA-AAA_00000000" "u1" true)
    (by unfold CreateRand.Valid; decide) (by decide)

/-- C9: the password of every successful create-meeting renders the natural
number `Math.floor(100000 + Math.random() * 900000)`, which lies in
`[100000, 999999]`; the rendered decimal string therefore has exactly 6
characters and never starts with the digit 0. -/
theorem password_range_six_digits (db : Storage) (b : CreateBody)
    (r : CreateRand) (sf : Bool) (mid pw rn : String) (tok : AccessToken)
    (hkp : r.kp < RAND_DENOM)
    (hok : (createMeeting db b r sf).1 = .ok mid pw rn tok) :
    pw = Nat.repr (passVal r.kp)
    ∧ 100000 ≤ passVal r.kp ∧ passVal r.kp ≤ 999999
    ∧ pw.length = 6
    ∧ pw.data.head? ≠ some '0' := by
  obtain ⟨-, -, -, -, hpw, -, -, -⟩ :=
    createMeeting_ok_inv db b r sf mid pw rn tok hok
  subst hpw
  have hb := passVal_bounds r.kp hkp
  have hlen : (genPassword r.kp).length = 6 := by
    show (genPassword r.kp).data.length = 6
    simp only [genPassword, repr_six _ hb.1 hb.2]
    rfl
  refine ⟨rfl, hb.1, hb.2, hlen, ?_⟩
  have h10 : passVal r.kp / 100000 % 10 = passVal r.kp / 100000 :=
    Nat.mod_eq_of_lt (by omega)
  have hne := digitChar_ne_zero (passVal r.kp / 100000) (by omega) (by omega)
  simp only [genPassword, repr_six _ hb.1 hb.2]
  simp [h10, hne]

/-- Witness for C9 at the all-zero draws: the password value is 100000 and
the string `100000` has 6 characters, not starting with `0`. -/
theorem password_range_six_digits_witness :
    ("100000" : String) = Nat.repr (passVal 0)
    ∧ 100000 ≤ passVal 0 ∧ passVal 0 ≤ 999999
    ∧ ("100000" : String).length = 6
    ∧ ("100000" : String).data.head? ≠ some '0' :=
  password_range_six_digits [] { userId := some "u1" } rand0 false
    "AAA-AAA-AAA" "100000" "room_AAA-AAA-AAA_00000000"
    (createLiveKitToken "room_AAA-AAA-AAA_00000000" "u1" true)
    (by decide) (by decide)
